import Mathlib

/-!
Verification of the Red SubContinent web client.

A shallow embedding of the TypeScript API client (`src/web/src/lib/monitoring.ts`),
the shared type definitions (`src/web/src/types/index.ts`), the display helpers
(`getConflictTypeLabel`) and the `DataContainer` pagination state machine, together
with proofs about the retry policy, error translation, query-string construction,
the request timeout and the pagination invariant.

Conventions of the embedding:
* JavaScript strings are Lean `String`s; JS `undefined`/absent optional values are
  `Option.none`.
* The transport (`fetch`) is modelled as a function from the attempt index to the
  settled outcome of that attempt: either a rejection (`netFail`, carrying the
  error message) or a delivered HTTP response.
* Time (for the timed model of the 12000 ms abort timer) is a `Nat` number of
  milliseconds; the event loop is single threaded, so an attempt settles either at
  its natural resolution time or at the abort deadline, whichever comes first.
-/

namespace RedSubContinent

/-- A parsed JSON object body, as far as the client inspects it: the client only
ever reads the `detail` field of an error body (`error.detail`), which may be
absent.  A successful body is returned to the caller opaquely. -/
structure JsonObj where
  detail : Option String
  deriving DecidableEq, Repr

/-- An HTTP response as seen by `fetchAPI`: the `ok` flag, the numeric status,
and the result of `response.json()` — `none` when the body fails to parse (the
promise rejects), `some b` when it parses to `b`. -/
structure HttpResponse where
  ok : Bool
  status : Nat
  body : Option JsonObj
  deriving DecidableEq, Repr

/-- The settled outcome of one transport attempt (`performFetch()`):
either the promise rejects with an error whose `message` is `msg`
(timeout/abort, connection error — no response received), or a response
is delivered. -/
inductive AttemptResult where
  | netFail (msg : String)
  | gotResponse (r : HttpResponse)
  deriving DecidableEq, Repr

/-- Retry budget: `options?.method && options.method !== "GET" ? 0 : 2`.
Note the JS truthiness test: an absent method, the method `"GET"`, and the
(falsy) empty-string method all get 2 retries; any other method gets 0. -/
def maxRetries (method : Option String) : Nat :=
  match method with
  | none => 2
  | some m => if m ≠ "" ∧ m ≠ "GET" then 0 else 2

/-- Result of the retry `while` loop: either a response was obtained
(`break` with `response` set) or the loop threw a network error. -/
inductive FetchResult where
  | success (r : HttpResponse)
  | networkError (msg : String)
  deriving DecidableEq, Repr

/-- Observable trace of the retry loop: its result, how many transport attempts
were made, and the backoffs slept between attempts (in order). -/
structure LoopTrace where
  result : FetchResult
  attempts : Nat
  backoffs : List Nat
  deriving DecidableEq, Repr

/-- The retry loop of `fetchAPI`.  In the source, `attempt` counts failures and
the loop runs `while (attempt <= maxRetries)`; here `i` is the current value of
`attempt` (also the index of the next transport call) and `remaining` is
`maxRetries + 1 - attempt`, the number of attempts still allowed.  On a caught
failure, `attempt` is incremented; if it now exceeds `maxRetries` the loop
throws `Network error: <err.message || "unknown">`, otherwise it sleeps
`200 * attempt` (here `base * attempt`) and retries.  The `remaining = 0` base
case is the loop exiting with `response === null`, which the source turns into
`throw new Error("No response received")`; it is unreachable from the top-level
call, exactly as that throw is dead code in the source. -/
def fetchLoop (t : Nat → AttemptResult) (base : Nat) : Nat → Nat → LoopTrace
  | 0, _ => ⟨.networkError "No response received", 0, []⟩
  | remaining + 1, i =>
    match t i with
    | .gotResponse r => ⟨.success r, 1, []⟩
    | .netFail msg =>
      if remaining = 0 then
        ⟨.networkError ("Network error: " ++ (if msg = "" then "unknown" else msg)), 1, []⟩
      else
        let rest := fetchLoop t base remaining (i + 1)
        ⟨rest.result, rest.attempts + 1, base * (i + 1) :: rest.backoffs⟩

/-- What `fetchAPI` does with an error response:
`await response.json().catch(() => ({ detail: "Unknown error" }))` —
a body that fails to parse is replaced by `{ detail: "Unknown error" }`. -/
def errorDetail (r : HttpResponse) : Option String :=
  match r.body with
  | none => some "Unknown error"
  | some b => b.detail

/-- The thrown message, `error.detail || "HTTP <status>"` — JS `||` falls through on the
falsy values of `error.detail`, i.e. an absent field or the empty string. -/
def errorMessage (r : HttpResponse) : String :=
  match errorDetail r with
  | some d => if d = "" then "HTTP " ++ toString r.status else d
  | none => "HTTP " ++ toString r.status

/-- Overall outcome of a `fetchAPI` call: the parsed body returned to the
caller, a thrown `Error` with the given message, or a rejection of the
success-path `response.json()` (whose message is generated by the JS runtime,
not by this code, so it is left abstract). -/
inductive FetchOutcome where
  | ok (body : JsonObj)
  | thrown (msg : String)
  | parseReject
  deriving DecidableEq, Repr

/-- Observable behaviour of one `fetchAPI` call. -/
structure FetchRun where
  outcome : FetchOutcome
  attempts : Nat
  backoffs : List Nat
  deriving DecidableEq, Repr

/-- The body of `fetchAPI` after the retry loop: the (dead) null check, then
`if (!response.ok)` translate to a thrown error, else `return response.json()`. -/
def finishFetch (res : FetchResult) : FetchOutcome :=
  match res with
  | .networkError msg => .thrown msg
  | .success r =>
    if r.ok then
      match r.body with
      | some b => .ok b
      | none => .parseReject
    else
      .thrown (errorMessage r)

/-- The whole of `fetchAPI` for a transport `t`, with the request method taken from the
options (`none` when no options or no method is given).  The backoff base is
the source's constant 200 and the retry budget is `maxRetries method`. -/
def fetchAPI (method : Option String) (t : Nat → AttemptResult) : FetchRun :=
  let tr := fetchLoop t 200 (maxRetries method + 1) 0
  ⟨finishFetch tr.result, tr.attempts, tr.backoffs⟩

/-- An error response whose body parses to `{ detail: "" }`: the `detail`
field is present but empty, so `error.detail ||` falls through to the
generic message. -/
def c4Response : HttpResponse := ⟨false, 500, some ⟨some ""⟩⟩

/-! ## Query-string construction (`buildQueryString`) -/

/-- A value of the `Record<string, unknown>` passed to `buildQueryString`, as
far as the call sites use it: absent (`undefined`), `null`, a string, a number,
or an array of strings (the `conflict_type` filter). -/
inductive ParamValue where
  | undef
  | null
  | str (s : String)
  | num (n : Int)
  | arr (vs : List String)
  deriving DecidableEq, Repr

/-- UTF-8 bytes of a character (as `Nat`s), for the URL encoder. -/
def utf8Bytes (c : Char) : List Nat :=
  let n := c.toNat
  if n < 0x80 then [n]
  else if n < 0x800 then [0xC0 + n / 0x40, 0x80 + n % 0x40]
  else if n < 0x10000 then
    [0xE0 + n / 0x1000, 0x80 + (n / 0x40) % 0x40, 0x80 + n % 0x40]
  else
    [0xF0 + n / 0x40000, 0x80 + (n / 0x1000) % 0x40, 0x80 + (n / 0x40) % 0x40,
      0x80 + n % 0x40]

/-- Bytes that `URLSearchParams` serialization leaves unescaped
(`application/x-www-form-urlencoded`): ASCII alphanumerics and `*`, `-`, `.`, `_`. -/
def isFormUnreserved (b : Nat) : Bool :=
  (0x30 ≤ b && b ≤ 0x39) || (0x41 ≤ b && b ≤ 0x5A) || (0x61 ≤ b && b ≤ 0x7A) ||
    b == 0x2A || b == 0x2D || b == 0x2E || b == 0x5F

/-- Upper-case hexadecimal digit for `n < 16`. -/
def hexDigit (n : Nat) : Char :=
  if n < 10 then Char.ofNat (0x30 + n) else Char.ofNat (0x41 + n - 10)

/-- Serialization of one byte under `application/x-www-form-urlencoded`:
unreserved bytes verbatim, space as `+`, anything else percent-escaped. -/
def encodeByte (b : Nat) : String :=
  if isFormUnreserved b then String.singleton (Char.ofNat b)
  else if b = 0x20 then "+"
  else String.mk ['%', hexDigit (b / 16), hexDigit (b % 16)]

/-- `URLSearchParams` encoding of one string. -/
def formEncode (s : String) : String :=
  String.join ((s.data.flatMap utf8Bytes).map encodeByte)

/-- The `for…of Object.entries` loop of `buildQueryString`, producing the
ordered key/value pairs appended to the `URLSearchParams`: `undefined` and
`null` are skipped, an array appends one pair per element (same key), any other
value appends `String(value)` once.  `Object.entries` yields string keys in
insertion order, so the input is an ordered association list. -/
def flattenParams : List (String × ParamValue) → List (String × String)
  | [] => []
  | (k, v) :: rest =>
    (match v with
      | .undef => []
      | .null => []
      | .str s => [(k, s)]
      | .num n => [(k, toString n)]
      | .arr vs => vs.map fun s => (k, s)) ++ flattenParams rest

/-- The body of `buildQueryString`: serialize the accumulated pairs
(`searchParams.toString()` joins `encode(k)=encode(v)` with `&`), then prefix
`?` unless the serialization is empty (JS truthiness of the string). -/
def buildQueryString (params : List (String × ParamValue)) : String :=
  let queryString :=
    String.intercalate "&"
      ((flattenParams params).map fun p => formEncode p.1 ++ "=" ++ formEncode p.2)
  if queryString = "" then "" else "?" ++ queryString

/-- An optional numeric argument forwarded into a `buildQueryString` record
field: absent becomes `undefined`. -/
def optNumParam : Option Int → ParamValue
  | none => .undef
  | some n => .num n

/-- The endpoint path requested by `getConflictsGeoJSON(yearStart?, yearEnd?)`:
`/api/conflicts/geojson` plus the query built from
`{ year_start: yearStart, year_end: yearEnd }`. -/
def getConflictsGeoJSONPath (yearStart yearEnd : Option Int) : String :=
  "/api/conflicts/geojson" ++
    buildQueryString
      [("year_start", optNumParam yearStart), ("year_end", optNumParam yearEnd)]

/-! ## Type enumerations and display labels -/

/-- The `ConflictType` union of `src/web/src/types/index.ts`. -/
inductive ConflictType where
  | war
  | invasion
  | massacre
  | riot
  | famine
  | partition_event
  | uprising
  | imperial_campaign
  | civil_conflict
  | communal_violence
  | other
  deriving DecidableEq, Fintype, Repr

/-- The `ConflictScale` union of `src/web/src/types/index.ts`. -/
inductive ConflictScale where
  | local
  | regional
  | subcontinental
  | international
  deriving DecidableEq, Fintype, Repr

/-- The helper `getConflictTypeLabel`: the `labels` record is total over `ConflictType`,
so the `|| type` fallback never fires. -/
def getConflictTypeLabel : ConflictType → String
  | .war => "War"
  | .invasion => "Invasion"
  | .massacre => "Massacre"
  | .riot => "Riot"
  | .famine => "Famine"
  | .partition_event => "Partition Event"
  | .uprising => "Uprising"
  | .imperial_campaign => "Imperial Campaign"
  | .civil_conflict => "Civil Conflict"
  | .communal_violence => "Communal Violence"
  | .other => "Other"

/-! ## `DataContainer` pagination -/

/-- Page values the `DataContainer` table view can reach, for a loaded response
whose `total_pages` is `tp`.  The state starts at `useState(1)`; the pagination
buttons are rendered only when `conflictsData` is present; Previous is disabled
when `page === 1` and sets `Math.max(1, p - 1)`; Next is disabled when
`page === conflictsData.total_pages` and sets `Math.min(total_pages, p + 1)`. -/
inductive PageReachable (tp : Nat) : Nat → Prop where
  | init : PageReachable tp 1
  | prev (p : Nat) (h : PageReachable tp p) (hne : p ≠ 1) :
      PageReachable tp (max 1 (p - 1))
  | next (p : Nat) (h : PageReachable tp p) (hne : p ≠ tp) :
      PageReachable tp (min tp (p + 1))

/-! ## Timed model of the request timeout

`fetchAPI` arms a single `setTimeout(() => controller.abort(), 12000)` before
the first attempt and every `performFetch` carries `controller.signal`.  The
timed model makes the clock explicit: each transport attempt has a natural
settle time; if the 12000 ms deadline passes first, the fetch rejects at the
deadline with the runtime's abort error; once the signal is aborted, later
attempts reject immediately.  Backoff sleeps advance the clock. -/

/-- The per-request timeout budget, `setTimeout(..., 12000)`. -/
def requestTimeoutMs : Nat := 12000

/-- The `message` of the abort error the runtime rejects an aborted fetch with
(left as a fixed abstract string; only its identity matters). -/
def abortErrorMessage : String := "The operation was aborted"

/-- One transport attempt in the timed model: how long the request would take
to settle naturally, and what it would settle to. -/
structure TimedAttempt where
  dur : Nat
  result : AttemptResult

/-- When and how an attempt started at time `now` settles, given the abort
deadline: a signal already aborted rejects immediately; a deadline strictly
before the natural settle time aborts the request at the deadline; otherwise
the attempt settles naturally. -/
def settleAttempt (deadline now : Nat) (a : TimedAttempt) : Nat × AttemptResult :=
  if deadline ≤ now then (now, .netFail abortErrorMessage)
  else if deadline < now + a.dur then (deadline, .netFail abortErrorMessage)
  else (now + a.dur, a.result)

/-- Timed trace of the retry loop: the result, the attempt count, and for each
attempt its settle time and settled outcome. -/
structure TimedTrace where
  result : FetchResult
  attempts : Nat
  events : List (Nat × AttemptResult)

/-- The retry loop of `fetchAPI` under the timed model; same control flow as
`fetchLoop`, with the clock threaded through (`now` is the start time of
attempt `i`). -/
def timedFetchLoop (t : Nat → TimedAttempt) (base deadline : Nat) :
    Nat → Nat → Nat → TimedTrace
  | 0, _, _ => ⟨.networkError "No response received", 0, []⟩
  | remaining + 1, i, now =>
    let s := settleAttempt deadline now (t i)
    match s.2 with
    | .gotResponse r => ⟨.success r, 1, [s]⟩
    | .netFail msg =>
      if remaining = 0 then
        ⟨.networkError ("Network error: " ++ (if msg = "" then "unknown" else msg)),
          1, [s]⟩
      else
        let rest := timedFetchLoop t base deadline remaining (i + 1) (s.1 + base * (i + 1))
        ⟨rest.result, rest.attempts + 1, s :: rest.events⟩

/-- Timed observable behaviour of a `fetchAPI` call. -/
structure TimedFetchRun where
  outcome : FetchOutcome
  attempts : Nat
  events : List (Nat × AttemptResult)

/-- The whole of `fetchAPI` under the timed model: the timer is armed at time 0 with the
12000 ms budget, then the retry loop runs and the result is translated exactly
as in the untimed model. -/
def timedFetchAPI (method : Option String) (t : Nat → TimedAttempt) : TimedFetchRun :=
  let tr := timedFetchLoop t 200 requestTimeoutMs (maxRetries method + 1) 0 0
  ⟨finishFetch tr.result, tr.attempts, tr.events⟩

/-! ## Unfolding lemmas for the retry loop -/

lemma fetchLoop_succ_got (t : Nat → AttemptResult) (base rem i : Nat) (r : HttpResponse)
    (h : t i = .gotResponse r) :
    fetchLoop t base (rem + 1) i = ⟨.success r, 1, []⟩ := by
  simp [fetchLoop, h]

lemma fetchLoop_succ_fail (t : Nat → AttemptResult) (base rem i : Nat) (msg : String)
    (h : t i = .netFail msg) (hrem : rem ≠ 0) :
    fetchLoop t base (rem + 1) i =
      ⟨(fetchLoop t base rem (i + 1)).result, (fetchLoop t base rem (i + 1)).attempts + 1,
        base * (i + 1) :: (fetchLoop t base rem (i + 1)).backoffs⟩ := by
  simp [fetchLoop, h, hrem]

lemma fetchLoop_one_fail (t : Nat → AttemptResult) (base i : Nat) (msg : String)
    (h : t i = .netFail msg) :
    fetchLoop t base 1 i =
      ⟨.networkError ("Network error: " ++ (if msg = "" then "unknown" else msg)), 1, []⟩ := by
  rw [show (1 : Nat) = 0 + 1 from rfl]
  simp [fetchLoop, h]

lemma fetchLoop_attempts_le (t : Nat → AttemptResult) (base : Nat) :
    ∀ rem i, (fetchLoop t base rem i).attempts ≤ rem := by
  intro rem
  induction rem with
  | zero => intro i; simp [fetchLoop]
  | succ n ih =>
    intro i
    cases h : t i with
    | gotResponse r => simp [fetchLoop, h]
    | netFail msg =>
      by_cases hn : n = 0
      · simp [fetchLoop, h, hn]
      · have := ih (i + 1)
        simp only [fetchLoop, h, hn, if_false]
        omega

lemma fetchLoop_one_backoffs (t : Nat → AttemptResult) (base i : Nat) :
    (fetchLoop t base 1 i).backoffs = [] := by
  rw [show (1 : Nat) = 0 + 1 from rfl]
  cases h : t i <;> simp [fetchLoop, h]

lemma fetchLoop_backoffs_getq (t : Nat → AttemptResult) (base : Nat) :
    ∀ rem i n b, (fetchLoop t base rem i).backoffs[n]? = some b → b = base * (i + 1 + n) := by
  intro rem
  induction rem with
  | zero => intro i n b hb; simp [fetchLoop] at hb
  | succ m ih =>
    intro i n b hb
    cases h : t i with
    | gotResponse r => rw [fetchLoop_succ_got t base m i r h] at hb; simp at hb
    | netFail msg =>
      by_cases hm : m = 0
      · subst hm; rw [fetchLoop_one_fail t base i msg h] at hb; simp at hb
      · rw [fetchLoop_succ_fail t base m i msg h hm] at hb
        rcases n with _ | n
        · simp at hb ⊢; exact hb.symm
        · simp at hb
          rw [ih (i + 1) n b hb]; ring

lemma fetchAPI_read_def (method : Option String) (t : Nat → AttemptResult)
    (h : method = none ∨ method = some "GET") :
    fetchAPI method t =
      ⟨finishFetch (fetchLoop t 200 3 0).result, (fetchLoop t 200 3 0).attempts,
        (fetchLoop t 200 3 0).backoffs⟩ := by
  rcases h with h | h <;> subst h <;> rfl

lemma fetchAPI_mut_def (m : String) (t : Nat → AttemptResult) (h1 : m ≠ "") (h2 : m ≠ "GET") :
    fetchAPI (some m) t =
      ⟨finishFetch (fetchLoop t 200 1 0).result, (fetchLoop t 200 1 0).attempts,
        (fetchLoop t 200 1 0).backoffs⟩ := by
  have hm : maxRetries (some m) = 0 := by simp [maxRetries, h1, h2]
  unfold fetchAPI
  rw [hm]

lemma fetchAPI_first_response (method : Option String) (t : Nat → AttemptResult)
    (r : HttpResponse) (h : t 0 = .gotResponse r) :
    fetchAPI method t = ⟨finishFetch (.success r), 1, []⟩ := by
  unfold fetchAPI
  rw [fetchLoop_succ_got t 200 (maxRetries method) 0 r h]

lemma fetchLoop3_two_fail_got (t : Nat → AttemptResult) (m0 m1 : String) (r : HttpResponse)
    (h0 : t 0 = .netFail m0) (h1 : t 1 = .netFail m1) (h2 : t 2 = .gotResponse r) :
    fetchLoop t 200 3 0 = ⟨.success r, 3, [200, 400]⟩ := by
  have e3 : fetchLoop t 200 1 2 = ⟨.success r, 1, []⟩ := fetchLoop_succ_got t 200 0 2 r h2
  have e2 : fetchLoop t 200 2 1 = ⟨.success r, 2, [400]⟩ := by
    have h := fetchLoop_succ_fail t 200 1 1 m1 h1 (by decide)
    norm_num at h
    rw [e3] at h
    simpa using h
  have h := fetchLoop_succ_fail t 200 2 0 m0 h0 (by decide)
  norm_num at h
  rw [e2] at h
  simpa using h

lemma fetchLoop3_all_fail (t : Nat → AttemptResult) (m0 m1 m2 : String)
    (h0 : t 0 = .netFail m0) (h1 : t 1 = .netFail m1) (h2 : t 2 = .netFail m2) :
    fetchLoop t 200 3 0 =
      ⟨.networkError ("Network error: " ++ (if m2 = "" then "unknown" else m2)), 3,
        [200, 400]⟩ := by
  have e3 : fetchLoop t 200 1 2 =
      ⟨.networkError ("Network error: " ++ (if m2 = "" then "unknown" else m2)), 1, []⟩ :=
    fetchLoop_one_fail t 200 2 m2 h2
  have e2 : fetchLoop t 200 2 1 =
      ⟨.networkError ("Network error: " ++ (if m2 = "" then "unknown" else m2)), 2, [400]⟩ := by
    have h := fetchLoop_succ_fail t 200 1 1 m1 h1 (by decide)
    norm_num at h
    rw [e3] at h
    simpa using h
  have h := fetchLoop_succ_fail t 200 2 0 m0 h0 (by decide)
  norm_num at h
  rw [e2] at h
  simpa using h

lemma fetchLoop3_two_fail_backoffs (t : Nat → AttemptResult) (m0 m1 : String)
    (h0 : t 0 = .netFail m0) (h1 : t 1 = .netFail m1) :
    (fetchLoop t 200 3 0).backoffs = [200, 400] := by
  have h := fetchLoop_succ_fail t 200 2 0 m0 h0 (by decide)
  norm_num at h
  have h2 := fetchLoop_succ_fail t 200 1 1 m1 h1 (by decide)
  norm_num at h2
  rw [h, h2]
  simp [fetchLoop_one_backoffs]

/-! ## Claim theorems -/

/-- C1 (amended): for a `fetchAPI` call whose options specify no method or the
method `"GET"`, at most 2 retries follow the initial attempt (at most 3
transport attempts); if the transport fails twice and then yields a good
response, the call succeeds with exactly 3 attempts; and for a call whose
method is present, non-empty and not `"GET"`, a transport failure is never
retried: exactly 1 attempt, then the call throws the network error. -/
theorem fetchAPI_retry_policy :
    (∀ (method : Option String) (t : Nat → AttemptResult),
        method = none ∨ method = some "GET" → (fetchAPI method t).attempts ≤ 3) ∧
    (∀ (method : Option String) (t : Nat → AttemptResult) (m0 m1 : String) (r : HttpResponse)
        (b : JsonObj), method = none ∨ method = some "GET" →
        t 0 = .netFail m0 → t 1 = .netFail m1 → t 2 = .gotResponse r →
        r.ok = true → r.body = some b →
        (fetchAPI method t).outcome = .ok b ∧ (fetchAPI method t).attempts = 3) ∧
    (∀ (m : String) (t : Nat → AttemptResult) (msg : String), m ≠ "" → m ≠ "GET" →
        t 0 = .netFail msg →
        (fetchAPI (some m) t).attempts = 1 ∧
        (fetchAPI (some m) t).outcome =
          .thrown ("Network error: " ++ (if msg = "" then "unknown" else msg))) := by
  refine ⟨?_, ?_, ?_⟩
  · intro method t h
    rw [fetchAPI_read_def method t h]
    exact fetchLoop_attempts_le t 200 3 0
  · intro method t m0 m1 r b h h0 h1 h2 hok hb
    rw [fetchAPI_read_def method t h, fetchLoop3_two_fail_got t m0 m1 r h0 h1 h2]
    exact ⟨by simp [finishFetch, hok, hb], rfl⟩
  · intro m t msg h1 h2 h0
    rw [fetchAPI_mut_def m t h1 h2, fetchLoop_one_fail t 200 0 msg h0]
    exact ⟨rfl, rfl⟩

/-- C1 counterexample: the claim says a present non-`"GET"` method is never
retried, but the empty-string method is present and different from `"GET"`
yet falsy in JS, so the code gives it the full read budget: with a transport
that always fails, 3 attempts are made, not 1. -/
theorem fetchAPI_retry_policy_counterexample :
    ("" : String) ≠ "GET" ∧
    (fetchAPI (some "") fun _ => AttemptResult.netFail "connection reset").attempts = 3 ∧
    (3 : Nat) ≠ 1 := by
  decide

/-- C1 witness: the amended policy at concrete transports — a GET-less call
that always fails stays within 3 attempts, a call failing twice then served
succeeds, and a POST that fails makes exactly one attempt. -/
theorem fetchAPI_retry_policy_witness :
    (fetchAPI none fun _ => AttemptResult.netFail "x").attempts ≤ 3 ∧
    (fetchAPI none fun i =>
        if i < 2 then AttemptResult.netFail "x"
        else AttemptResult.gotResponse ⟨true, 200, some ⟨none⟩⟩).outcome = FetchOutcome.ok ⟨none⟩ ∧
    (fetchAPI (some "POST") fun _ => AttemptResult.netFail "x").attempts = 1 :=
  ⟨fetchAPI_retry_policy.1 none _ (Or.inl rfl),
    (fetchAPI_retry_policy.2.1 none _ "x" "x" ⟨true, 200, some ⟨none⟩⟩ ⟨none⟩ (Or.inl rfl)
      (by decide) (by decide) (by decide) rfl rfl).1,
    (fetchAPI_retry_policy.2.2 "POST" _ "x" (by decide) (by decide) rfl).1⟩

/-- C2: when the first transport attempt delivers an HTTP response, no retry
and no backoff occurs (exactly one attempt, whatever the method); if that
response is not ok the call throws an error; and any run with two or more
attempts must have started with a transport-level failure — received
responses are never retried. -/
theorem fetchAPI_no_retry_on_http_error :
    (∀ (method : Option String) (t : Nat → AttemptResult) (r : HttpResponse),
        t 0 = .gotResponse r →
        (fetchAPI method t).attempts = 1 ∧ (fetchAPI method t).backoffs = []) ∧
    (∀ (method : Option String) (t : Nat → AttemptResult) (r : HttpResponse),
        t 0 = .gotResponse r → r.ok = false →
        ∃ msg, (fetchAPI method t).outcome = .thrown msg) ∧
    (∀ (method : Option String) (t : Nat → AttemptResult),
        2 ≤ (fetchAPI method t).attempts → ∃ msg, t 0 = .netFail msg) := by
  refine ⟨?_, ?_, ?_⟩
  · intro method t r h
    rw [fetchAPI_first_response method t r h]
    exact ⟨rfl, rfl⟩
  · intro method t r h hok
    rw [fetchAPI_first_response method t r h]
    exact ⟨errorMessage r, by simp [finishFetch, hok]⟩
  · intro method t hat
    cases h : t 0 with
    | netFail msg => exact ⟨msg, rfl⟩
    | gotResponse r =>
      rw [fetchAPI_first_response method t r h] at hat
      simp at hat

/-- C2 witness: a transport answering HTTP 500 on the first attempt is
attempted exactly once and the call throws. -/
theorem fetchAPI_no_retry_on_http_error_witness :
    (fetchAPI none fun _ => AttemptResult.gotResponse ⟨false, 500, some ⟨none⟩⟩).attempts = 1 ∧
    ∃ msg, (fetchAPI none fun _ => AttemptResult.gotResponse ⟨false, 500, some ⟨none⟩⟩).outcome
        = FetchOutcome.thrown msg :=
  ⟨(fetchAPI_no_retry_on_http_error.1 none _ _ rfl).1,
    fetchAPI_no_retry_on_http_error.2.1 none _ _ rfl rfl⟩

/-- C3: `buildQueryString` flattening — `undefined` and `null` fields are
omitted, string and number fields append one pair in insertion order, an
array field appends one pair per element under the same key; and the concrete
input `{conflict_type: ["war","famine"], year_start: 1900}` serializes as
`?conflict_type=war&conflict_type=famine&year_start=1900`. -/
theorem buildQueryString_flattening :
    (∀ (k : String) (rest : List (String × ParamValue)),
        flattenParams ((k, ParamValue.undef) :: rest) = flattenParams rest) ∧
    (∀ (k : String) (rest : List (String × ParamValue)),
        flattenParams ((k, ParamValue.null) :: rest) = flattenParams rest) ∧
    (∀ (k s : String) (rest : List (String × ParamValue)),
        flattenParams ((k, ParamValue.str s) :: rest) = (k, s) :: flattenParams rest) ∧
    (∀ (k : String) (n : Int) (rest : List (String × ParamValue)),
        flattenParams ((k, ParamValue.num n) :: rest) = (k, toString n) :: flattenParams rest) ∧
    (∀ (k : String) (vs : List String) (rest : List (String × ParamValue)),
        flattenParams ((k, ParamValue.arr vs) :: rest) =
          (vs.map fun v => (k, v)) ++ flattenParams rest) ∧
    buildQueryString [("conflict_type", ParamValue.arr ["war", "famine"]),
        ("year_start", ParamValue.num 1900)] =
      "?conflict_type=war&conflict_type=famine&year_start=1900" := by
  refine ⟨?_, ?_, ?_, ?_, ?_, by decide⟩ <;> intros <;> simp [flattenParams]

/-- C4 counterexample: the claim says the thrown message equals the `detail`
field whenever it is present, but for a body parsing to `{ detail: "" }`
(field present, empty) the code throws the generic `HTTP 500` instead,
because JS `||` treats the empty string as absent. -/
theorem fetchAPI_error_message_counterexample :
    c4Response.body = some ⟨some ""⟩ ∧ c4Response.ok = false ∧
    (fetchAPI none fun _ => AttemptResult.gotResponse c4Response).outcome =
      FetchOutcome.thrown "HTTP 500" ∧
    ("HTTP 500" : String) ≠ "" := by
  decide

/-- C4 (amended): on an error response the thrown message equals the
server-provided `detail` field when the body parses and that field is present
and non-empty; it is `"Unknown error"` when the body fails to parse (the
`.catch` fallback); and otherwise — `detail` absent or empty — it is the
generic `HTTP <status>`. -/
theorem fetchAPI_error_message_translation (method : Option String)
    (t : Nat → AttemptResult) (r : HttpResponse)
    (h : t 0 = .gotResponse r) (hok : r.ok = false) :
    (∀ d, r.body = some ⟨some d⟩ → d ≠ "" → (fetchAPI method t).outcome = .thrown d) ∧
    (r.body = none → (fetchAPI method t).outcome = .thrown "Unknown error") ∧
    ((r.body = some ⟨none⟩ ∨ r.body = some ⟨some ""⟩) →
      (fetchAPI method t).outcome = .thrown ("HTTP " ++ toString r.status)) := by
  refine ⟨?_, ?_, ?_⟩
  · intro d hb hd
    simp [fetchAPI_first_response method t r h, finishFetch, hok, errorMessage, errorDetail, hb, hd]
  · intro hb
    simp [fetchAPI_first_response method t r h, finishFetch, hok, errorMessage, errorDetail, hb]
  · rintro (hb | hb) <;>
      simp [fetchAPI_first_response method t r h, finishFetch, hok, errorMessage, errorDetail, hb]

/-- C4 witness: a 404 whose body carries `detail: "Conflict not found"` throws
exactly that message. -/
theorem fetchAPI_error_message_translation_witness :
    (fetchAPI none fun _ =>
        AttemptResult.gotResponse ⟨false, 404, some ⟨some "Conflict not found"⟩⟩).outcome
      = FetchOutcome.thrown "Conflict not found" :=
  (fetchAPI_error_message_translation none _ _ rfl rfl).1 "Conflict not found" rfl (by decide)

/-- C5: when every attempt of a read call fails at the transport level, the
call throws a network error wrapping the message of the last underlying
failure (with the code substituting `"unknown"` for a falsy empty message),
after exactly 3 attempts. -/
theorem fetchAPI_network_error_wraps_last (method : Option String)
    (t : Nat → AttemptResult) (m0 m1 m2 : String)
    (hread : method = none ∨ method = some "GET")
    (h0 : t 0 = .netFail m0) (h1 : t 1 = .netFail m1) (h2 : t 2 = .netFail m2) :
    (fetchAPI method t).outcome =
      .thrown ("Network error: " ++ (if m2 = "" then "unknown" else m2)) ∧
    (fetchAPI method t).attempts = 3 := by
  rw [fetchAPI_read_def method t hread, fetchLoop3_all_fail t m0 m1 m2 h0 h1 h2]
  exact ⟨rfl, rfl⟩

/-- C5 witness: a transport that always fails with `"connection refused"`
surfaces `Network error: connection refused` after 3 attempts. -/
theorem fetchAPI_network_error_wraps_last_witness :
    (fetchAPI none fun _ => AttemptResult.netFail "connection refused").outcome
        = FetchOutcome.thrown "Network error: connection refused" ∧
    (fetchAPI none fun _ => AttemptResult.netFail "connection refused").attempts = 3 := by
  have h := fetchAPI_network_error_wraps_last none
    (fun _ => AttemptResult.netFail "connection refused")
    "connection refused" "connection refused" "connection refused" (Or.inl rfl) rfl rfl rfl
  rw [if_neg (by decide)] at h
  exact h

/-- C6: every backoff slept by `fetchAPI` is linear in the retry index — the
wait before the n-th retry (0-based index n in the backoff trace) is
`200 * (n + 1)`, i.e. base 200 before the first retry and 400 before the
second; and a read call whose first two attempts fail sleeps exactly
`[200, 400]`. -/
theorem fetchAPI_linear_backoff :
    (∀ (method : Option String) (t : Nat → AttemptResult) (n b : Nat),
        (fetchAPI method t).backoffs[n]? = some b → b = 200 * (n + 1)) ∧
    (∀ (method : Option String) (t : Nat → AttemptResult) (m0 m1 : String),
        method = none ∨ method = some "GET" →
        t 0 = .netFail m0 → t 1 = .netFail m1 →
        (fetchAPI method t).backoffs = [200, 400]) := by
  constructor
  · intro method t n b hb
    have h2 : (fetchLoop t 200 (maxRetries method + 1) 0).backoffs[n]? = some b := hb
    have := fetchLoop_backoffs_getq t 200 (maxRetries method + 1) 0 n b h2
    omega
  · intro method t m0 m1 h h0 h1
    rw [fetchAPI_read_def method t h]
    exact fetchLoop3_two_fail_backoffs t m0 m1 h0 h1

/-- C6 witness: an always-failing read call sleeps `[200, 400]`, and its first
recorded backoff satisfies the linear formula. -/
theorem fetchAPI_linear_backoff_witness :
    (fetchAPI none fun _ => AttemptResult.netFail "x").backoffs = [200, 400] ∧
    (200 : Nat) = 200 * (0 + 1) :=
  ⟨fetchAPI_linear_backoff.2 none _ "x" "x" (Or.inl rfl) rfl rfl,
    fetchAPI_linear_backoff.1 none (fun _ => AttemptResult.netFail "x") 0 200 (by decide)⟩

lemma settleAttempt_already (deadline now : Nat) (a : TimedAttempt) (h : deadline ≤ now) :
    settleAttempt deadline now a = (now, .netFail abortErrorMessage) := by
  simp [settleAttempt, h]

lemma settleAttempt_aborts (deadline now : Nat) (a : TimedAttempt)
    (h1 : ¬ deadline ≤ now) (h2 : deadline < now + a.dur) :
    settleAttempt deadline now a = (deadline, .netFail abortErrorMessage) := by
  simp [settleAttempt, h1, h2]

lemma timedFetchLoop_succ_fail (t : Nat → TimedAttempt) (base deadline rem i now fin : Nat)
    (msg : String)
    (h : settleAttempt deadline now (t i) = (fin, .netFail msg)) (hrem : rem ≠ 0) :
    timedFetchLoop t base deadline (rem + 1) i now =
      ⟨(timedFetchLoop t base deadline rem (i + 1) (fin + base * (i + 1))).result,
        (timedFetchLoop t base deadline rem (i + 1) (fin + base * (i + 1))).attempts + 1,
        (fin, .netFail msg) ::
          (timedFetchLoop t base deadline rem (i + 1) (fin + base * (i + 1))).events⟩ := by
  simp [timedFetchLoop, h, hrem]

lemma timedFetchLoop_one_fail (t : Nat → TimedAttempt) (base deadline i now fin : Nat)
    (msg : String)
    (h : settleAttempt deadline now (t i) = (fin, .netFail msg)) :
    timedFetchLoop t base deadline 1 i now =
      ⟨.networkError ("Network error: " ++ (if msg = "" then "unknown" else msg)), 1,
        [(fin, .netFail msg)]⟩ := by
  rw [show (1 : Nat) = 0 + 1 from rfl]
  simp [timedFetchLoop, h]

/-- C7: in the timed model, a read request whose transport would take longer
than the 12000 ms budget is aborted exactly at time 12000 and that abort is a
transport-level failure: the first attempt settles to a network failure at
the deadline (even if the transport would eventually have delivered a
response), the remaining retries fail instantly on the already-aborted
signal, and the call surfaces the abort as a wrapped network error after the
full read-retry budget of 3 attempts — never as an HTTP error. -/
theorem fetchAPI_timeout_abort (method : Option String) (t : Nat → TimedAttempt)
    (hread : method = none ∨ method = some "GET")
    (hdur : requestTimeoutMs < (t 0).dur) :
    (timedFetchAPI method t).events =
        [(12000, .netFail abortErrorMessage), (12200, .netFail abortErrorMessage),
          (12600, .netFail abortErrorMessage)] ∧
    (timedFetchAPI method t).outcome = .thrown ("Network error: " ++ abortErrorMessage) ∧
    (timedFetchAPI method t).attempts = 3 := by
  have hmr : maxRetries method = 2 := by rcases hread with h | h <;> subst h <;> rfl
  have hd : (12000 : Nat) < (t 0).dur := hdur
  have s0 : settleAttempt requestTimeoutMs 0 (t 0) = (12000, .netFail abortErrorMessage) :=
    settleAttempt_aborts requestTimeoutMs 0 (t 0) (by decide)
      (by show (12000 : Nat) < 0 + (t 0).dur; omega)
  have s1 : settleAttempt requestTimeoutMs 12200 (t 1) = (12200, .netFail abortErrorMessage) :=
    settleAttempt_already requestTimeoutMs 12200 (t 1) (by decide)
  have s2 : settleAttempt requestTimeoutMs 12600 (t 2) = (12600, .netFail abortErrorMessage) :=
    settleAttempt_already requestTimeoutMs 12600 (t 2) (by decide)
  have e2 : timedFetchLoop t 200 requestTimeoutMs 1 2 12600 =
      ⟨.networkError ("Network error: " ++ abortErrorMessage), 1,
        [(12600, .netFail abortErrorMessage)]⟩ := by
    have h := timedFetchLoop_one_fail t 200 requestTimeoutMs 2 12600 12600 abortErrorMessage s2
    rw [if_neg (by decide)] at h
    exact h
  have e1 : timedFetchLoop t 200 requestTimeoutMs 2 1 12200 =
      ⟨.networkError ("Network error: " ++ abortErrorMessage), 2,
        [(12200, .netFail abortErrorMessage), (12600, .netFail abortErrorMessage)]⟩ := by
    have h := timedFetchLoop_succ_fail t 200 requestTimeoutMs 1 1 12200 12200
      abortErrorMessage s1 (by decide)
    norm_num at h
    rw [e2] at h
    simpa using h
  have e0 : timedFetchLoop t 200 requestTimeoutMs 3 0 0 =
      ⟨.networkError ("Network error: " ++ abortErrorMessage), 3,
        [(12000, .netFail abortErrorMessage), (12200, .netFail abortErrorMessage),
          (12600, .netFail abortErrorMessage)]⟩ := by
    have h := timedFetchLoop_succ_fail t 200 requestTimeoutMs 2 0 0 12000
      abortErrorMessage s0 (by decide)
    norm_num at h
    rw [e1] at h
    simpa using h
  unfold timedFetchAPI
  rw [hmr, show (2 : Nat) + 1 = 3 from rfl, e0]
  exact ⟨rfl, rfl, rfl⟩

/-- C7 witness: a transport that would deliver a good response only after
13000 ms is timed out and surfaced as a network error after 3 attempts. -/
theorem fetchAPI_timeout_abort_witness :
    (timedFetchAPI none fun _ =>
        ⟨13000, AttemptResult.gotResponse ⟨true, 200, some ⟨none⟩⟩⟩).outcome
      = FetchOutcome.thrown ("Network error: " ++ abortErrorMessage) ∧
    (timedFetchAPI none fun _ =>
        ⟨13000, AttemptResult.gotResponse ⟨true, 200, some ⟨none⟩⟩⟩).attempts = 3 :=
  ⟨(fetchAPI_timeout_abort none _ (Or.inl rfl) (by decide)).2.1,
    (fetchAPI_timeout_abort none _ (Or.inl rfl) (by decide)).2.2⟩

/-- C8: the event-type enumeration has exactly eleven values and the scale
enumeration exactly four, and `getConflictTypeLabel` returns a (non-empty)
display label for every value of `ConflictType`. -/
theorem conflictType_card_and_label_total :
    Fintype.card ConflictType = 11 ∧ Fintype.card ConflictScale = 4 ∧
    ∀ c : ConflictType, getConflictTypeLabel c ≠ "" := by
  refine ⟨?_, ?_, ?_⟩ <;> decide

lemma flattenParams_all_skipped :
    ∀ ps : List (String × ParamValue),
      (∀ kv ∈ ps, kv.2 = ParamValue.undef ∨ kv.2 = ParamValue.null) → flattenParams ps = [] := by
  intro ps
  induction ps with
  | nil => intro _; rfl
  | cons kv rest ih =>
    intro h
    have h2 := h kv (by simp)
    have h3 : ∀ kv ∈ rest, kv.2 = ParamValue.undef ∨ kv.2 = ParamValue.null :=
      fun x hx => h x (List.mem_cons_of_mem _ hx)
    obtain ⟨k, v⟩ := kv
    rcases h2 with h2 | h2 <;> simp at h2 <;> subst h2 <;> simp [flattenParams, ih h3]

/-- C9: a parameter object all of whose fields are `undefined` or `null`
serializes to the empty string, not a bare `?`; in particular
`getConflictsGeoJSON()` with no arguments requests exactly
`/api/conflicts/geojson` with no query string. -/
theorem buildQueryString_empty_cases :
    (∀ ps : List (String × ParamValue),
        (∀ kv ∈ ps, kv.2 = ParamValue.undef ∨ kv.2 = ParamValue.null) →
        buildQueryString ps = "") ∧
    getConflictsGeoJSONPath none none = "/api/conflicts/geojson" := by
  constructor
  · intro ps h
    simp only [buildQueryString, flattenParams_all_skipped ps h]
    rfl
  · rfl

/-- C9 witness: the concrete all-absent filter serializes to the empty
string. -/
theorem buildQueryString_empty_cases_witness :
    buildQueryString [("year_start", ParamValue.undef), ("year_end", ParamValue.null)] = "" :=
  buildQueryString_empty_cases.1 _ (by decide)

/-- C10 counterexample: with a loaded response whose `total_pages` is 0, the
Next button is enabled on page 1 (1 differs from 0) and
`Math.min(0, 2)` sets the page to 0, so page 0 is reachable and the claimed
invariant `1 ≤ page` fails. -/
theorem dataContainer_page_counterexample :
    PageReachable 0 0 ∧ ¬ (1 ≤ (0 : Nat)) :=
  ⟨@PageReachable.next 0 1 PageReachable.init (by decide), by decide⟩

/-- C10 (amended): provided the loaded response's `total_pages` is at least 1
(and fixed across the run), the page state starts at 1 and every
Previous/Next transition preserves `1 ≤ page ∧ page ≤ total_pages`
(Previous clamps at 1, Next clamps at `total_pages`); hence every list
request issued by the view carries `page ≥ 1`. -/
theorem dataContainer_page_invariant (tp p : Nat) (htp : 1 ≤ tp)
    (h : PageReachable tp p) : 1 ≤ p ∧ p ≤ tp := by
  induction h with
  | init => omega
  | prev q hq hne ih => omega
  | next q hq hne ih => omega

/-- C10 witness: with 3 total pages, page 2 (reached by one Next from the
initial page) satisfies the invariant. -/
theorem dataContainer_page_invariant_witness : 1 ≤ 2 ∧ 2 ≤ 3 :=
  dataContainer_page_invariant 3 2 (by decide)
    (@PageReachable.next 3 1 PageReachable.init (by decide))

end RedSubContinent
